import Mathlib

/-!
Verification of the M4R matching engine core against its specification.

The development shallowly embeds the two core modules of the repository,
`src/vector_store.py` (class `VectorStore`) and `src/matching_engine.py`
(class `MatchingEngine`), as executable Lean definitions and proves the
spec's testable properties about them.

Modelling conventions:
* Python floats are modelled as exact rationals (`ℚ`); decimal literals in
  the source become the corresponding rational constants.
* Python dicts holding entity records are modelled as a single record type
  `EntityData` with one optional field per key the engine reads; `get` with
  a default becomes `Option.getD`.
* Python truthiness of preference flags is modelled as `Bool` (absent or
  falsy collapses to `false`).
* The FAISS library itself is external to the repository; its exact
  brute-force inner-product search (`IndexFlatIP.search`) is modelled by
  `faissSearch`, including its documented padding behaviour: when fewer
  than the requested number of vectors are stored, the result rows are
  padded with label `-1` and the heap-neutral distance value
  `-FLT_MAX` (`faissPadSim` below).
* The source normalizes every stored vector and every query to unit L2
  norm before taking inner products.  The square-root in the norm is not
  a rational operation, so the model takes already-normalized vectors as
  input and carries the unit-norm invariant (`dot v v = 1`, the exact
  arithmetic consequence of normalization) as a hypothesis where a proof
  needs it.
-/

namespace M4R

/-- Python list indexing `l[i]` with an integer index: nonnegative indices
count from the front, negative indices from the back, out-of-range raises
(modelled as `none`). -/
def pyIndex {α : Type} (l : List α) (i : Int) : Option α :=
  if 0 ≤ i then l.get? i.toNat
  else if (-i).toNat ≤ l.length then l.get? (l.length - (-i).toNat)
  else none

/-- Test whether the second character list starts with the first. -/
def charsStartWith : List Char → List Char → Bool
  | [], _ => true
  | _ :: _, [] => false
  | a :: as, b :: bs => a == b && charsStartWith as bs

/-- Test whether the second character list contains the first as a
contiguous infix. -/
def charsContain (needle : List Char) : List Char → Bool
  | [] => charsStartWith needle []
  | b :: bs => charsStartWith needle (b :: bs) || charsContain needle bs

/-- Python's substring test `needle in hay` on strings. -/
def pyIn (needle hay : String) : Bool :=
  charsContain needle.data hay.data

/-- Python's `str.lower()`, as character-wise lowercasing (the statuses
and type names the engine lowercases are plain ASCII). -/
def pyLower (s : String) : String :=
  ⟨s.data.map Char.toLower⟩

/-- Python `d.get(key, dflt)` on an association list modelling a dict. -/
def assocGetD {β : Type} (l : List (String × β)) (key : String) (dflt : β) : β :=
  match l.find? (fun p => p.1 == key) with
  | some p => p.2
  | none => dflt

/-- Dot product of two rational vectors (numpy inner product; extra
coordinates of the longer vector are ignored, which never happens for
dimension-checked inputs). -/
def dot : List ℚ → List ℚ → ℚ
  | x :: xs, y :: ys => x * y + dot xs ys
  | _, _ => 0

/-- Stable insertion (descending by `key`) used to model Python's stable
`list.sort(key=…, reverse=True)`: `x` is placed before the first element
whose key is ≤ its own, so earlier elements stay before later ones with
an equal key. -/
def insertDescBy {α : Type} (key : α → ℚ) (x : α) : List α → List α
  | [] => [x]
  | y :: ys => if key y ≤ key x then x :: y :: ys else y :: insertDescBy key x ys

/-- Stable descending sort by a rational key (the extensional behaviour of
Python's stable `sort` with `reverse=True`). -/
def sortDescBy {α : Type} (key : α → ℚ) : List α → List α
  | [] => []
  | x :: xs => insertDescBy key x (sortDescBy key xs)

/-- Lexicographic "key descending, then original position ascending"
order on position-decorated elements; the order a stable descending sort
realizes. -/
def lexBefore {α : Type} (key : α → ℚ) (a b : Nat × α) : Prop :=
  key b.2 < key a.2 ∨ (key a.2 = key b.2 ∧ a.1 ≤ b.1)

instance {α : Type} (key : α → ℚ) (a b : Nat × α) : Decidable (lexBefore key a b) := by
  unfold lexBefore; infer_instance

/-- Insertion for the lexicographic order `lexBefore`. -/
def insertLex {α : Type} (key : α → ℚ) (x : Nat × α) : List (Nat × α) → List (Nat × α)
  | [] => [x]
  | y :: ys => if lexBefore key x y then x :: y :: ys else y :: insertLex key x ys

/-- Sort position-decorated elements by `lexBefore`. -/
def sortLex {α : Type} (key : α → ℚ) : List (Nat × α) → List (Nat × α)
  | [] => []
  | x :: xs => insertLex key x (sortLex key xs)

/-! ## Data model

One record type models the raw Python dicts (`original_data`) of all
entity kinds; each field is one key the engine reads, `none` meaning the
key is absent. -/

/-- Preference flags of a seeker record (`user_data['preferences']`);
Python truthiness collapsed to `Bool`. -/
structure Preferences where
  collaborations : Bool := false
  grantFundedProjects : Bool := false
  funding : Bool := false
  consulting : Bool := false
  opportunities : Bool := false
  deriving DecidableEq, Repr

/-- The raw `applicantTypes` (or `applicant_types`) field of a project
record: absent, a list of strings, or a JSON-encoded string.  For the
string case the constructor carries the raw text (Python's `in` does a
substring test on it in `calculate_relevance_score`) together with the
result of `json.loads` (`none` models a malformed encoding, which the
filter recovers from as an empty list). -/
inductive AppTypesRaw where
  | absent
  | list (l : List String)
  | str (raw : String) (parsed : Option (List String))
  deriving DecidableEq, Repr

/-- A raw entity record (a Python dict), restricted to the keys the
matching engine reads.  Used both for seeker records and for project
records. -/
structure EntityData where
  preferences : Preferences := {}
  location : Option String := none
  type : Option String := none
  skills : List (Option String) := []
  areasOfExpertise : List (Option String) := []
  fullName : Option String := none
  applicantTypes : AppTypesRaw := .absent
  delivery : Option String := none
  status : Option String := none
  duration : Option String := none
  title : Option String := none
  summary : Option String := none
  budget : Option String := none
  deadline : Option String := none
  organization : Option String := none
  deriving DecidableEq, Repr

/-- Metadata stored by `VectorStore` for each indexed vector. -/
structure MetaEntry where
  entity_id : String
  entity_type : String
  index_position : Nat
  original_data : EntityData := {}
  text_representation : String := ""
  deriving DecidableEq, Repr

/-- A search result dict built by `VectorStore.search`.  The two mismatch
flags are the transient keys `_type_mismatch` / `_location_mismatch`
added later by `apply_compatibility_filters`; a missing key reads as
falsy, modelled by the default `false`. -/
structure SearchHit where
  entity_id : String
  entity_type : String
  similarity_score : ℚ
  original_data : EntityData := {}
  text_representation : String := ""
  type_mismatch : Bool := false
  location_mismatch : Bool := false
  deriving DecidableEq, Repr

/-- State of `VectorStore`: the FAISS index contents (one vector per
insertion, in order), the metadata list, the id → position map and the
built flag. -/
structure VectorStore where
  embedding_dimension : Nat
  vectors : List (List ℚ) := []
  metadata : List MetaEntry := []
  id_to_index : List (String × Nat) := []
  is_built : Bool := false
  deriving DecidableEq, Repr

/-- The five-way score breakdown returned by `calculate_relevance_score`. -/
structure Scores where
  final_score : ℚ
  semantic_similarity : ℚ
  applicant_type_match : ℚ
  project_type_alignment : ℚ
  delivery_compatibility : ℚ
  duration_fit : ℚ
  deriving DecidableEq, Repr

/-- The condensed `project_summary` sub-record of a recommendation. -/
structure ProjectSummary where
  summary : String
  duration : String
  location : String
  budget : String
  delivery : String
  deadline : String
  deriving DecidableEq, Repr

/-- One output record of `find_recommendations`. -/
structure Recommendation where
  project_id : String
  project_title : String
  project_type : String
  organization_name : String
  match_score : ℚ
  confidence : String
  match_reasons : List String
  score_breakdown : Scores
  project_summary : ProjectSummary
  deriving DecidableEq, Repr

/-- One item of the cached embeddings data (id, embedding vector and the
raw record). -/
structure EmbItem where
  id : Option String := none
  embedding : List ℚ := []
  original_data : EntityData := {}
  deriving DecidableEq, Repr

/-- State of `MatchingEngine`: the vector store and the embeddings data
keyed by entity kind. -/
structure MatchingEngine where
  vector_store : VectorStore
  embeddings_data : List (String × List EmbItem) := []
  deriving DecidableEq, Repr

/-! ## VectorStore (`src/vector_store.py`) -/

/-- Distance value FAISS uses to pad result rows of an inner-product
(`IndexFlatIP`) search when fewer vectors are stored than requested: the
most negative single-precision float, `-FLT_MAX`.  The padded label is
`-1`. -/
def faissPadSim : ℚ := -340282346638528859811704183484516925440

/-- Exact brute-force inner-product search of `faiss.IndexFlatIP`: score
every stored vector against the query, order by similarity descending
(FAISS leaves the tie order unspecified; the model determinizes ties to
insertion order), return exactly `kp` rows, padding with label `-1` and
distance `faissPadSim` when fewer than `kp` vectors are stored. -/
def faissSearch (vectors : List (List ℚ)) (q : List ℚ) (kp : Nat) : List (ℚ × Int) :=
  let scored := vectors.enum.map (fun p => (dot q p.2, (p.1 : Int)))
  let top := (sortDescBy (fun e => e.1) scored).take kp
  top ++ List.replicate (kp - top.length) (faissPadSim, -1)

/-- Build the result dict of one search hit from a metadata entry and its
similarity.  The result dict carries no mismatch keys yet (`false`). -/
def mkSearchHit (m : MetaEntry) (sim : ℚ) : SearchHit :=
  { entity_id := m.entity_id
    entity_type := m.entity_type
    similarity_score := sim
    original_data := m.original_data
    text_representation := m.text_representation }

/-- The result-collecting loop of `VectorStore.search`: for each
`(similarity, idx)` row, `if idx < len(self.metadata)` (Python negative
indexing applies, so `-1` reads the last entry), optionally filter by
entity type, append the hit, and stop once `k` results are collected.
`none` models the `IndexError` a too-negative index would raise (caught
by the surrounding `except`, which returns an empty list). -/
def searchGo (md : List MetaEntry) (tyFilter : List String) (useFilter : Bool) (k : Nat) :
    List (ℚ × Int) → List SearchHit → Option (List SearchHit)
  | [], acc => some acc.reverse
  | (sim, idx) :: rest, acc =>
    if idx < (md.length : Int) then
      match pyIndex md idx with
      | none => none
      | some m =>
        if useFilter && !(tyFilter.contains m.entity_type) then
          searchGo md tyFilter useFilter k rest acc
        else
          let acc' := mkSearchHit m sim :: acc
          if k ≤ acc'.length then some acc'.reverse
          else searchGo md tyFilter useFilter k rest acc'
    else searchGo md tyFilter useFilter k rest acc

/-- Outcome of `VectorStore.search`, separating the two return points of
the source: the not-built early exit (which prints an index-not-built
diagnostic and yields no results) and a normal result list. -/
inductive SearchOutcome where
  | notBuilt
  | ok (results : List SearchHit)
  deriving DecidableEq, Repr

/-- Python truthiness of the `entity_types` argument of `search`:
`None` or an empty list is falsy, disabling the kind filter. -/
def kindFilterActive (entity_types : Option (List String)) : Bool :=
  match entity_types with
  | none => false
  | some l => !l.isEmpty

/-- The body of `VectorStore.search`: refuse when the index is not built,
otherwise ask FAISS for `k * 2` rows (over-fetch to allow filtering) and
run the collecting loop; the exception path of the source's `except`
clause also yields an empty result list.  The query is used as passed:
the source first divides it by its L2 norm, so theorems about similarity
values assume a unit-norm query. -/
def VectorStore.searchOutcome (s : VectorStore) (query : List ℚ) (k : Nat)
    (entity_types : Option (List String)) : SearchOutcome :=
  if s.is_built = false then .notBuilt
  else
    match searchGo s.metadata (entity_types.getD []) (kindFilterActive entity_types) k
        (faissSearch s.vectors query (k * 2)) [] with
    | none => .ok []
    | some results => .ok results

/-- `VectorStore.search` as the caller sees it: both the not-built exit
and the exception path return an empty list. -/
def VectorStore.search (s : VectorStore) (query : List ℚ) (k : Nat)
    (entity_types : Option (List String)) : List SearchHit :=
  match s.searchOutcome query k entity_types with
  | .notBuilt => []
  | .ok results => results

/-- A freshly constructed `VectorStore` (no index built, nothing added). -/
def VectorStore.init (dim : Nat) : VectorStore :=
  { embedding_dimension := dim }

/-- One step of `add_embeddings`: append one item's (unit-normalized)
embedding, record metadata and the id → position entry.  The id defaults
to `f"{entity_type}_{current_index}"` when absent. -/
def addItem (entity_type : String) (s : VectorStore × Nat) (item : EmbItem) :
    VectorStore × Nat :=
  let (st, currentIndex) := s
  let entityId := item.id.getD (entity_type ++ "_" ++ toString currentIndex)
  ({ st with
      vectors := st.vectors ++ [item.embedding]
      metadata := st.metadata ++ [{ entity_id := entityId
                                    entity_type := entity_type
                                    index_position := currentIndex
                                    original_data := item.original_data }]
      id_to_index := st.id_to_index ++ [(entityId, currentIndex)] },
   currentIndex + 1)

/-- `VectorStore.add_embeddings`: walk all entity kinds, appending every
item (the source skips items without an embedding; the model's items
always carry one).  `is_built` is set only when at least one embedding
was added, exactly as the source sets it only in the nonempty branch.
The running position counter restarts at 0 on every call, as in the
source. -/
def VectorStore.add_embeddings (s : VectorStore)
    (embeddings_data : List (String × List EmbItem)) : VectorStore :=
  let step := fun (acc : VectorStore × Nat) (kindItems : String × List EmbItem) =>
    kindItems.2.foldl (addItem kindItems.1) acc
  let (st, n) := embeddings_data.foldl step (s, 0)
  if n = 0 then st else { st with is_built := true }

/-- The on-disk artifacts `save_index` writes at one location: the FAISS
index blob plus the pickled metadata blob (metadata list, id → position
map, dimension). -/
structure SavedIndex where
  index_vectors : List (List ℚ)
  saved_metadata : List MetaEntry
  saved_id_to_index : List (String × Nat)
  saved_dimension : Nat
  deriving DecidableEq, Repr

/-- `VectorStore.save_index`: refuses (`none`) when no index is built,
otherwise writes the index contents and the metadata blob. -/
def VectorStore.save_index (s : VectorStore) : Option SavedIndex :=
  if s.is_built = false then none
  else some { index_vectors := s.vectors
              saved_metadata := s.metadata
              saved_id_to_index := s.id_to_index
              saved_dimension := s.embedding_dimension }

/-- `VectorStore.load_index` on files that exist and unpickle cleanly:
every field of the store is replaced by the saved one and `is_built` is
set. -/
def VectorStore.load_index (saved : SavedIndex) : VectorStore :=
  { embedding_dimension := saved.saved_dimension
    vectors := saved.index_vectors
    metadata := saved.saved_metadata
    id_to_index := saved.saved_id_to_index
    is_built := true }

/-! ## MatchingEngine (`src/matching_engine.py`) -/

/-- The profile `get_user_preferences` derives from a raw seeker record. -/
structure UserPrefs where
  seeking : List String
  location : String
  user_type : String
  skills : List String
  expertise : List String
  deriving DecidableEq, Repr

/-- `MatchingEngine.get_user_preferences`: map the truthy preference flags
to seeking tags, default a missing location to `"any"` and a missing type
to `"unknown"`. -/
def get_user_preferences (user_data : EntityData) : UserPrefs :=
  let p := user_data.preferences
  { seeking :=
      (if p.collaborations then ["collaboration"] else []) ++
      (if p.grantFundedProjects then ["research", "grant"] else []) ++
      (if p.funding then ["funding"] else []) ++
      (if p.consulting then ["consulting"] else []) ++
      (if p.opportunities then ["opportunity"] else [])
    location := user_data.location.getD "any"
    user_type := user_data.type.getD "unknown"
    skills := user_data.skills.map (fun s => s.getD "")
    expertise := user_data.areasOfExpertise.map (fun a => a.getD "") }

/-- The fixed declared-type → compatible-applicant-types table of
`apply_compatibility_filters`. -/
def type_mapping : List (String × List String) :=
  [ ("student/early-career", ["student", "student/early-career", "early-career"]),
    ("professional/consultant", ["professional", "consultant", "professional/consultant"]),
    ("researcher/academic", ["professional", "research", "researcher", "academic", "academic_institution"]),
    ("entrepreneur/inovator", ["entrepreneur", "startup", "company", "inovator"]),
    ("privateOrganisation", ["company", "startup", "entrepreneur", "organization", "private"]),
    ("publicInstitution", ["professional", "research", "academic_institution", "government_agency", "public", "institution"]),
    ("startup", ["startup", "company", "entrepreneur", "organization"]),
    ("non_profit", ["non_profit", "ngo", "organization", "nonprofit"]),
    ("professional", ["professional", "consultant"]),
    ("student", ["student", "early-career"]),
    ("research_center", ["research_center", "research", "academic_institution"]),
    ("company", ["company", "startup", "entrepreneur", "organization"]),
    ("entrepreneur", ["entrepreneur", "startup", "company"]),
    ("research", ["research", "researcher", "academic"]),
    ("government_agency", ["government_agency", "public", "institution"]),
    ("academic_institution", ["academic_institution", "research", "university"]),
    ("unknown", ["professional", "student", "organization"]) ]

/-- Parsing of the raw applicant-types field as done in the filter: a
list is taken as is, a string goes through `json.loads` with malformed
input recovered as `[]`, anything absent defaults to `[]`. -/
def parseApplicantTypes : AppTypesRaw → List String
  | .absent => []
  | .list l => l
  | .str _ parsed => parsed.getD []

/-- Python's `x in applicant_types` on the RAW field value as used in
`calculate_relevance_score` (no JSON parsing there): membership for a
list, substring test for a string, `False` for the `[]` default. -/
def appTypesContain (ats : AppTypesRaw) (x : String) : Bool :=
  match ats with
  | .absent => false
  | .list l => l.contains x
  | .str raw _ => pyIn x raw

/-- Whether a project record passes the hard status filter:
`project_data.get('status', '').lower()` must be `'active'` or `''`
(missing status counts as active). -/
def statusActive (pd : EntityData) : Bool :=
  ["active", ""].contains (pyLower (pd.status.getD ""))

/-- The per-project annotation step of `apply_compatibility_filters`:
set `_type_mismatch` when the project declares eligible applicant types
and none of the seeker's compatible types occurs among them, and
`_location_mismatch` when the locations differ, neither side is the
sentinel `'other'`, and delivery is neither online-virtual nor hybrid.
The source computes the seeker profile once before its loop; computing
it per project is the same pure value. -/
def annotateProject (user_data : EntityData) (p : SearchHit) : SearchHit :=
  let prefs := get_user_preferences user_data
  let userCompatibleTypes := assocGetD type_mapping prefs.user_type [pyLower prefs.user_type]
  let applicantTypes := parseApplicantTypes p.original_data.applicantTypes
  let typeMismatch :=
    if applicantTypes.isEmpty then false
    else !(userCompatibleTypes.any (fun utype => applicantTypes.contains utype))
  let projectLocation := p.original_data.location.getD "any"
  let delivery := p.original_data.delivery.getD "in-person"
  let locationCompatible :=
    (prefs.location == projectLocation) ||
    (prefs.location == "other") ||
    (projectLocation == "other") ||
    (["online-virtual", "hybrid"].contains delivery)
  { p with type_mismatch := typeMismatch, location_mismatch := !locationCompatible }

/-- `MatchingEngine.apply_compatibility_filters`: annotate every project
with the two soft-mismatch flags, then keep (in order) exactly those whose
status passes the hard filter. -/
def apply_compatibility_filters (projects : List SearchHit) (user_data : EntityData) :
    List SearchHit :=
  projects.filterMap (fun p =>
    let p' := annotateProject user_data p
    if statusActive p'.original_data then some p' else none)

/-- The perfect-match chain of the applicant-type sub-score of
`calculate_relevance_score`: 1.0 on the listed exact matches, else the
0.8 default. -/
def typeScoreBase (user_type : String) (ats : AppTypesRaw) : ℚ :=
  if user_type == "professional/consultant" && appTypesContain ats "professional" then 1
  else if user_type == "student/early-career" && appTypesContain ats "student" then 1
  else if user_type == "researcher/academic" &&
      ["professional", "research", "academic_institution"].any (appTypesContain ats) then 1
  else if user_type == "entrepreneur/inovator" &&
      ["entrepreneur", "startup", "company"].any (appTypesContain ats) then 1
  else if user_type == "publicInstitution" &&
      ["research", "academic_institution", "professional"].any (appTypesContain ats) then 1
  else if user_type == "privateOrganisation" &&
      ["company", "startup", "entrepreneur", "organization"].any (appTypesContain ats) then 1
  else if user_type == "startup" &&
      ["startup", "company", "entrepreneur"].any (appTypesContain ats) then 1
  else 0.8

/-- The applicant-type sub-score: the perfect-match chain result, then a
40% penalty when the `_type_mismatch` flag is set. -/
def typeScoreOf (user_type : String) (ats : AppTypesRaw) (mismatch : Bool) : ℚ :=
  if mismatch then typeScoreBase user_type ats * 0.6 else typeScoreBase user_type ats

/-- The delivery base score: 0.9 for online-virtual/hybrid, else 0.7. -/
def deliveryScoreBase (delivery : String) : ℚ :=
  if ["online-virtual", "hybrid"].contains delivery then 0.9 else 0.7

/-- The delivery sub-score: the base, then a ×0.7 penalty when the
`_location_mismatch` flag is set. -/
def deliveryScoreOf (delivery : String) (mismatch : Bool) : ℚ :=
  if mismatch then deliveryScoreBase delivery * 0.7 else deliveryScoreBase delivery

/-- The duration sub-score: 1.0 / 0.9 for student-type seekers on short-
or medium-term projects, else 0.8 (`'student' in user_type` is a
substring test). -/
def durationScoreOf (user_type duration : String) : ℚ :=
  if pyIn "student" user_type && duration == "short-term" then 1
  else if pyIn "student" user_type && duration == "medium-term" then 0.9
  else 0.8

/-- The project-type alignment sub-score (`x in project_type` is a
substring test on the project's type string). -/
def alignScoreOf (seeking : List String) (project_type : String) : ℚ :=
  if seeking.contains "research" && pyIn "funding-opportunity" project_type then 1
  else if seeking.contains "grant" &&
      (pyIn "fellowship" project_type || pyIn "funding" project_type) then 1
  else if seeking.contains "collaboration" then 0.9
  else if seeking.contains "funding" && pyIn "funding" project_type then 0.9
  else 0.7

/-- `MatchingEngine.calculate_relevance_score`: the five sub-scores and
their fixed-weight composite. -/
def calculate_relevance_score (project : SearchHit) (user_data : EntityData)
    (similarity_score : ℚ) : Scores :=
  let prefs := get_user_preferences user_data
  let pd := project.original_data
  let semantic_score : ℚ := max 0 similarity_score
  let type_score := typeScoreOf prefs.user_type pd.applicantTypes project.type_mismatch
  let delivery_score := deliveryScoreOf (pd.delivery.getD "in-person") project.location_mismatch
  let duration_score := durationScoreOf prefs.user_type (pd.duration.getD "unknown")
  let type_alignment_score := alignScoreOf prefs.seeking (pd.type.getD "unknown")
  { final_score :=
      semantic_score * 0.4 + type_score * 0.25 + type_alignment_score * 0.20 +
      delivery_score * 0.10 + duration_score * 0.05
    semantic_similarity := semantic_score
    applicant_type_match := type_score
    project_type_alignment := type_alignment_score
    delivery_compatibility := delivery_score
    duration_fit := duration_score }

/-- `MatchingEngine.generate_match_reasons`: collect the applicable
reason strings in priority order, fall back to a generic one, keep at
most four. -/
def generate_match_reasons (project : SearchHit) (user_data : EntityData)
    (scores : Scores) : List String :=
  let pd := project.original_data
  let prefs := get_user_preferences user_data
  let reasons : List String :=
    (if scores.semantic_similarity > 0.7 then ["Strong skill and expertise alignment"]
     else if scores.semantic_similarity > 0.5 then ["Good skill compatibility"] else []) ++
    (if scores.applicant_type_match ≥ 1 then
       (if ["publicInstitution", "startup", "privateOrganisation"].contains prefs.user_type
        then ["Perfect organizational fit"] else ["Perfect fit for your profile"])
     else if scores.applicant_type_match > 0.6 then ["Compatible applicant profile"] else []) ++
    (if scores.project_type_alignment ≥ 1 then ["Matches your stated preferences"]
     else if scores.project_type_alignment > 0.8 then ["Aligns with your interests"] else []) ++
    (if ["online-virtual", "hybrid"].contains (pd.delivery.getD "in-person")
     then ["Flexible delivery options available"] else []) ++
    (if pyIn "student" prefs.user_type && (pd.duration.getD "unknown") == "short-term"
     then ["Good duration for student schedule"] else []) ++
    (match pd.budget with
     | some b => if b ≠ "" && b ≠ "Not specified" then ["Funded opportunity"] else []
     | none => [])
  (if reasons.isEmpty then ["Matches your profile"] else reasons).take 4

/-- Build one output record of `find_recommendations` for a surviving
candidate. -/
def buildRecommendation (user_data : EntityData) (project : SearchHit) : Recommendation :=
  let scores := calculate_relevance_score project user_data project.similarity_score
  { project_id := project.entity_id
    project_title := project.original_data.title.getD "Unknown"
    project_type := project.original_data.type.getD "Unknown"
    organization_name := project.original_data.organization.getD "Unknown"
    match_score := scores.final_score
    confidence :=
      if scores.final_score > 0.7 then "high"
      else if scores.final_score > 0.5 then "medium" else "low"
    match_reasons := generate_match_reasons project user_data scores
    score_breakdown := scores
    project_summary :=
      { summary := (project.original_data.summary.getD "").take 200
        duration := project.original_data.duration.getD "Unknown"
        location := project.original_data.location.getD "Unknown"
        budget := project.original_data.budget.getD "Not specified"
        delivery := project.original_data.delivery.getD "Unknown"
        deadline := project.original_data.deadline.getD "Not specified" } }

/-- The entity-kind resolution at the top of `find_recommendations`
(Python truthiness: an absent or empty string falls through). -/
def resolveEntityKey (user_type entity_type : Option String) : String :=
  let et := entity_type.getD ""
  if et ≠ "" then
    if et == "individuals" then "individuals"
    else if et == "organizations" then "organizations"
    else et
  else
    let ut := user_type.getD ""
    if ut ≠ "" then
      if ut == "individual" then "individuals"
      else if ut == "organization" then "organizations"
      else ut
    else "individuals"

/-- Default result count (`config.MAX_RECOMMENDATIONS`, env default 20). -/
def MAX_RECOMMENDATIONS : Nat := 20

/-- The seeker lookup of `find_recommendations`: first item of the
resolved kind whose id equals the requested one. -/
def MatchingEngine.lookupUser (eng : MatchingEngine) (finalType user_id : String) :
    Option EmbItem :=
  (assocGetD eng.embeddings_data finalType []).find? (fun item => item.id == some user_id)

/-- `MatchingEngine.find_recommendations`: resolve the seeker, over-fetch
`top_k * 3` project-call hits from the vector store, soft-filter, score
up to `top_k * 2` survivors, sort by composite score descending (stable)
and truncate to `top_k`. -/
def find_recommendations (eng : MatchingEngine) (user_id : String)
    (user_type : Option String := none) (entity_type : Option String := none)
    (top_k : Option Nat := none) : List Recommendation :=
  let finalType := resolveEntityKey user_type entity_type
  let k := top_k.getD MAX_RECOMMENDATIONS
  match eng.lookupUser finalType user_id with
  | none => []
  | some item =>
    let similar := eng.vector_store.search item.embedding (k * 3) (some ["project_calls"])
    if similar.isEmpty then []
    else
      let compatible := apply_compatibility_filters similar item.original_data
      let recommendations := (compatible.take (k * 2)).map (buildRecommendation item.original_data)
      (sortDescBy (fun r => r.match_score) recommendations).take k

/-! ## Concrete fixtures

The end-to-end scenario of spec §8, plus a minimal one-vector store that
exercises the FAISS padding path of `search`. -/

/-- The §8 seeker: declared type student/early-career, grant-funded
projects preference (seeking tags research and grant), location Romania. -/
def seekerData : EntityData :=
  { preferences := { grantFundedProjects := true }
    location := some "Romania"
    type := some "student/early-career" }

/-- The §8 Project A record: applicant types `["student"]`, active,
online-virtual, short-term. -/
def projectAData : EntityData :=
  { applicantTypes := .list ["student"]
    status := some "active"
    delivery := some "online-virtual"
    duration := some "short-term"
    title := some "Project A" }

/-- The §8 Project B record: applicant types `["professional"]`, active,
in-person, long-term. -/
def projectBData : EntityData :=
  { applicantTypes := .list ["professional"]
    status := some "active"
    delivery := some "in-person"
    duration := some "long-term"
    title := some "Project B" }

/-- The seeker's stored (unit-norm) embedding. -/
def qSeeker : List ℚ := [1, 0, 0, 0]

/-- Project A's stored unit-norm embedding; inner product with the seeker
embedding is the §8 raw similarity 0.8. -/
def vProjectA : List ℚ := [4/5, 3/5, 0, 0]

/-- Project B's stored unit-norm embedding; inner product with the seeker
embedding is the §8 raw similarity 0.9. -/
def vProjectB : List ℚ := [9/10, 3/10, 3/10, 1/10]

/-- Metadata entry for Project B (index position 0). -/
def metaB : MetaEntry :=
  { entity_id := "projB", entity_type := "project_calls", index_position := 0
    original_data := projectBData }

/-- Metadata entry for Project A (index position 1). -/
def metaA : MetaEntry :=
  { entity_id := "projA", entity_type := "project_calls", index_position := 1
    original_data := projectAData }

/-- The built store of the §8 scenario, holding the two project vectors. -/
def scenarioStore : VectorStore :=
  { embedding_dimension := 4
    vectors := [vProjectB, vProjectA]
    metadata := [metaB, metaA]
    id_to_index := [("projB", 0), ("projA", 1)]
    is_built := true }

/-- The engine of the §8 scenario: the store above plus the seeker's
cached embedding item. -/
def scenarioEngine : MatchingEngine :=
  { vector_store := scenarioStore
    embeddings_data :=
      [("individuals",
        [{ id := some "u1", embedding := qSeeker, original_data := seekerData }])] }

/-- Project A as a raw search hit (similarity 0.8), before annotation. -/
def hitA : SearchHit :=
  { entity_id := "projA", entity_type := "project_calls"
    similarity_score := 4/5, original_data := projectAData }

/-- Project B as a raw search hit (similarity 0.9), before annotation. -/
def hitB : SearchHit :=
  { entity_id := "projB", entity_type := "project_calls"
    similarity_score := 9/10, original_data := projectBData }

/-- Metadata entry of the single vector of `padStore`. -/
def padMeta : MetaEntry :=
  { entity_id := "p1", entity_type := "project_calls", index_position := 0 }

/-- A built store holding a single unit vector: searches with `k ≥ 1`
make FAISS return padded rows (label `-1`), which `search`'s
`idx < len(metadata)` guard does not reject. -/
def padStore : VectorStore :=
  { embedding_dimension := 2
    vectors := [[1, 0]]
    metadata := [padMeta]
    id_to_index := [("p1", 0)]
    is_built := true }

/-- The blob `padStore.save_index` writes. -/
def padSaved : SavedIndex :=
  { index_vectors := [[1, 0]]
    saved_metadata := [padMeta]
    saved_id_to_index := [("p1", 0)]
    saved_dimension := 2 }

/-- A seeker record with no location field: the extracted profile
location defaults to the sentinel `"any"`. -/
def noLocSeeker : EntityData :=
  { type := some "student/early-career" }

/-- An active, in-person candidate in a specific city. -/
def inPersonClujHit : SearchHit :=
  { entity_id := "pX", entity_type := "project_calls", similarity_score := 1/2
    original_data :=
      { location := some "Cluj-Napoca", delivery := some "in-person"
        status := some "active" } }

/-- An active candidate with no location field of its own. -/
def noLocHit : SearchHit :=
  { entity_id := "pY", entity_type := "project_calls", similarity_score := 1/2
    original_data := { status := some "active" } }

/-- A candidate whose status is cancelled. -/
def cancelledHit : SearchHit :=
  { entity_id := "pC", entity_type := "project_calls", similarity_score := 1
    original_data := { status := some "cancelled" } }

/-- The bound property claimed for the five sub-scores and their
composite: every component and the final score lie in `[0, 1]`. -/
def scoresInRange (s : Scores) : Prop :=
  0 ≤ s.semantic_similarity ∧ s.semantic_similarity ≤ 1 ∧
  0 ≤ s.applicant_type_match ∧ s.applicant_type_match ≤ 1 ∧
  0 ≤ s.project_type_alignment ∧ s.project_type_alignment ≤ 1 ∧
  0 ≤ s.delivery_compatibility ∧ s.delivery_compatibility ≤ 1 ∧
  0 ≤ s.duration_fit ∧ s.duration_fit ≤ 1 ∧
  0 ≤ s.final_score ∧ s.final_score ≤ 1

/-! ## Infrastructure lemmas: stable sorting -/

lemma insertDescBy_perm {α : Type} (key : α → ℚ) (x : α) (l : List α) :
    List.Perm (insertDescBy key x l) (x :: l) := by
  induction l with
  | nil => simp [insertDescBy]
  | cons y ys ih =>
    by_cases h : key y ≤ key x
    · simp [insertDescBy, h]
    · simp only [insertDescBy, if_neg h]
      exact (ih.cons y).trans (List.Perm.swap x y ys)

lemma sortDescBy_perm {α : Type} (key : α → ℚ) (l : List α) :
    List.Perm (sortDescBy key l) l := by
  induction l with
  | nil => simp [sortDescBy]
  | cons x xs ih => exact (insertDescBy_perm key x _).trans (ih.cons x)

lemma mem_insertDescBy {α : Type} {key : α → ℚ} {x z : α} {l : List α} :
    z ∈ insertDescBy key x l ↔ z = x ∨ z ∈ l := by
  rw [(insertDescBy_perm key x l).mem_iff, List.mem_cons]

lemma pairwise_insertDescBy {α : Type} {key : α → ℚ} {x : α} {l : List α}
    (h : l.Pairwise (fun a b => key b ≤ key a)) :
    (insertDescBy key x l).Pairwise (fun a b => key b ≤ key a) := by
  induction l with
  | nil => simp [insertDescBy]
  | cons y ys ih =>
    rcases List.pairwise_cons.mp h with ⟨hy, hys⟩
    by_cases hxy : key y ≤ key x
    · simp only [insertDescBy, if_pos hxy]
      refine List.pairwise_cons.mpr ⟨?_, h⟩
      intro z hz
      rcases List.mem_cons.mp hz with rfl | hz
      · exact hxy
      · exact le_trans (hy z hz) hxy
    · simp only [insertDescBy, if_neg hxy]
      refine List.pairwise_cons.mpr ⟨?_, ih hys⟩
      intro z hz
      rcases mem_insertDescBy.mp hz with rfl | hz
      · exact le_of_lt (lt_of_not_le hxy)
      · exact hy z hz

lemma sortDescBy_pairwise {α : Type} (key : α → ℚ) (l : List α) :
    (sortDescBy key l).Pairwise (fun a b => key b ≤ key a) := by
  induction l with
  | nil => simp [sortDescBy]
  | cons x xs ih => exact pairwise_insertDescBy ih

/-! ## Infrastructure lemmas: the lexicographic order a stable sort realizes -/

lemma insertLex_perm {α : Type} (key : α → ℚ) (x : Nat × α) (l : List (Nat × α)) :
    List.Perm (insertLex key x l) (x :: l) := by
  induction l with
  | nil => simp [insertLex]
  | cons y ys ih =>
    by_cases h : lexBefore key x y
    · simp [insertLex, h]
    · simp only [insertLex, if_neg h]
      exact (ih.cons y).trans (List.Perm.swap x y ys)

lemma sortLex_perm {α : Type} (key : α → ℚ) (l : List (Nat × α)) :
    List.Perm (sortLex key l) l := by
  induction l with
  | nil => simp [sortLex]
  | cons x xs ih => exact (insertLex_perm key x _).trans (ih.cons x)

lemma lexBefore_of_not_lexBefore {α : Type} {key : α → ℚ} {a b : Nat × α}
    (h : ¬ lexBefore key a b) : lexBefore key b a := by
  unfold lexBefore at h ⊢
  push_neg at h
  rcases lt_trichotomy (key a.2) (key b.2) with hlt | heq | hgt
  · exact Or.inl hlt
  · exact Or.inr ⟨heq.symm, le_of_lt (h.2 heq)⟩
  · exact absurd hgt (not_lt.mpr h.1)

lemma lexBefore_trans {α : Type} {key : α → ℚ} {a b c : Nat × α}
    (h1 : lexBefore key a b) (h2 : lexBefore key b c) : lexBefore key a c := by
  unfold lexBefore at h1 h2 ⊢
  rcases h1 with h1 | ⟨h1e, h1i⟩
  · rcases h2 with h2 | ⟨h2e, _⟩
    · exact Or.inl (h2.trans h1)
    · exact Or.inl (h2e ▸ h1)
  · rcases h2 with h2 | ⟨h2e, h2i⟩
    · exact Or.inl (h1e ▸ h2)
    · exact Or.inr ⟨h1e.trans h2e, h1i.trans h2i⟩

lemma pairwise_insertLex {α : Type} {key : α → ℚ} {x : Nat × α} {l : List (Nat × α)}
    (h : l.Pairwise (lexBefore key)) :
    (insertLex key x l).Pairwise (lexBefore key) := by
  induction l with
  | nil => simp [insertLex]
  | cons y ys ih =>
    rcases List.pairwise_cons.mp h with ⟨hy, hys⟩
    by_cases hxy : lexBefore key x y
    · simp only [insertLex, if_pos hxy]
      refine List.pairwise_cons.mpr ⟨?_, h⟩
      intro z hz
      rcases List.mem_cons.mp hz with rfl | hz
      · exact hxy
      · exact lexBefore_trans hxy (hy z hz)
    · simp only [insertLex, if_neg hxy]
      refine List.pairwise_cons.mpr ⟨?_, ih hys⟩
      intro z hz
      rcases List.mem_cons.mp ((insertLex_perm key x ys).mem_iff.mp hz) with rfl | hz
      · exact lexBefore_of_not_lexBefore hxy
      · exact hy z hz

lemma sortLex_pairwise {α : Type} (key : α → ℚ) (l : List (Nat × α)) :
    (sortLex key l).Pairwise (lexBefore key) := by
  induction l with
  | nil => simp [sortLex]
  | cons x xs ih => exact pairwise_insertLex ih

lemma le_fst_of_mem_enumFrom {α : Type} {l : List α} :
    ∀ {n : Nat} {p : Nat × α}, p ∈ l.enumFrom n → n ≤ p.1 := by
  induction l with
  | nil => intro n p h; simp [List.enumFrom] at h
  | cons x xs ih =>
    intro n p h
    rcases List.mem_cons.mp h with rfl | h
    · exact le_refl n
    · exact le_of_lt (Nat.lt_of_lt_of_le (Nat.lt_succ_self n) (ih h))

lemma snd_mem_of_mem_enumFrom {α : Type} {l : List α} :
    ∀ {n : Nat} {p : Nat × α}, p ∈ l.enumFrom n → p.2 ∈ l := by
  induction l with
  | nil => intro n p h; simp [List.enumFrom] at h
  | cons x xs ih =>
    intro n p h
    rcases List.mem_cons.mp h with rfl | h
    · exact List.mem_cons_self _ _
    · exact List.mem_cons_of_mem _ (ih h)

lemma map_snd_insertLex {α : Type} (key : α → ℚ) (x : Nat × α) (l : List (Nat × α))
    (hl : ∀ p ∈ l, x.1 < p.1) :
    (insertLex key x l).map Prod.snd = insertDescBy key x.2 (l.map Prod.snd) := by
  induction l with
  | nil => simp [insertLex, insertDescBy]
  | cons y ys ih =>
    have hxy : x.1 < y.1 := hl y (List.mem_cons_self y ys)
    have hcond : lexBefore key x y ↔ key y.2 ≤ key x.2 := by
      unfold lexBefore
      constructor
      · rintro (h | ⟨h, _⟩)
        · exact le_of_lt h
        · exact le_of_eq h.symm
      · intro h
        rcases lt_or_eq_of_le h with h | h
        · exact Or.inl h
        · exact Or.inr ⟨h.symm, le_of_lt hxy⟩
    by_cases h : key y.2 ≤ key x.2
    · simp [insertLex, insertDescBy, if_pos (hcond.mpr h), if_pos h]
    · have : ¬ lexBefore key x y := fun hc => h (hcond.mp hc)
      simp only [insertLex, if_neg this, insertDescBy, if_neg h, List.map_cons]
      rw [ih (fun p hp => hl p (List.mem_cons_of_mem y hp))]

lemma map_snd_sortLex_enumFrom {α : Type} (key : α → ℚ) :
    ∀ (l : List α) (n : Nat),
      (sortLex key (l.enumFrom n)).map Prod.snd = sortDescBy key l := by
  intro l
  induction l with
  | nil => intro n; simp [List.enumFrom, sortLex, sortDescBy]
  | cons x xs ih =>
    intro n
    have hmem : ∀ p ∈ sortLex key (xs.enumFrom (n + 1)), n < p.1 := by
      intro p hp
      exact Nat.lt_of_lt_of_le (Nat.lt_succ_self n)
        (le_fst_of_mem_enumFrom ((sortLex_perm key _).mem_iff.mp hp))
    calc (sortLex key ((x :: xs).enumFrom n)).map Prod.snd
        = (insertLex key (n, x) (sortLex key (xs.enumFrom (n + 1)))).map Prod.snd := rfl
      _ = insertDescBy key x ((sortLex key (xs.enumFrom (n + 1))).map Prod.snd) :=
          map_snd_insertLex key (n, x) _ hmem
      _ = insertDescBy key x (sortDescBy key xs) := by rw [ih]
      _ = sortDescBy key (x :: xs) := rfl

/-! ## Infrastructure lemmas: dot products and Cauchy-Schwarz -/

lemma dot_self_nonneg (v : List ℚ) : 0 ≤ dot v v := by
  induction v with
  | nil => simp [dot]
  | cons x xs ih => simp only [dot]; nlinarith [sq_nonneg x]

lemma cauchy_step (x y d A B : ℚ) (hA : 0 ≤ A) (hB : 0 ≤ B) (hd : d ^ 2 ≤ A * B) :
    (x * y + d) ^ 2 ≤ (x ^ 2 + A) * (y ^ 2 + B) := by
  rcases eq_or_lt_of_le hB with h0 | hpos
  · have hd0 : d = 0 := by nlinarith [sq_nonneg d]
    subst hd0
    nlinarith [mul_nonneg hA (sq_nonneg y)]
  · nlinarith [sq_nonneg (B * x - d * y), mul_nonneg (sq_nonneg y) (sub_nonneg.mpr hd),
      mul_nonneg (le_of_lt hpos) (sub_nonneg.mpr hd)]

lemma dot_sq_le (a : List ℚ) : ∀ b : List ℚ, (dot a b) ^ 2 ≤ dot a a * dot b b := by
  induction a with
  | nil => intro b; simp [dot]
  | cons x xs ih =>
    intro b
    cases b with
    | nil =>
      simp [dot]
    | cons y ys =>
      simp only [dot]
      have h1 : x * x = x ^ 2 := by ring
      have h2 : y * y = y ^ 2 := by ring
      rw [h1, h2]
      exact cauchy_step x y (dot xs ys) (dot xs xs) (dot ys ys)
        (dot_self_nonneg xs) (dot_self_nonneg ys) (ih ys)

lemma dot_unit_bounds {q v : List ℚ} (hq : dot q q = 1) (hv : dot v v = 1) :
    -1 ≤ dot q v ∧ dot q v ≤ 1 := by
  have h := dot_sq_le q v
  rw [hq, hv, one_mul] at h
  have := abs_le.mp ((sq_le_one_iff_abs_le_one (dot q v)).mp h)
  exact this

/-! ## Infrastructure lemmas: the FAISS search model and the result loop -/

lemma faissPadSim_lt_neg_one : faissPadSim < -1 := by norm_num [faissPadSim]

lemma faiss_genuine_mem {vs : List (List ℚ)} {q : List ℚ} {kp : Nat} {e : ℚ × Int}
    (he : e ∈ (sortDescBy (fun p => p.1)
      (vs.enum.map (fun p => (dot q p.2, (p.1 : Int))))).take kp) :
    ∃ v ∈ vs, e.1 = dot q v := by
  have h1 : e ∈ vs.enum.map (fun p => (dot q p.2, (p.1 : Int))) :=
    (sortDescBy_perm _ _).mem_iff.mp (List.mem_of_mem_take he)
  rcases List.mem_map.mp h1 with ⟨p, hp, he⟩
  exact ⟨p.2, snd_mem_of_mem_enumFrom hp, by rw [← he]⟩

lemma faissSearch_pairwise {vs : List (List ℚ)} {q : List ℚ} (kp : Nat)
    (hq : dot q q = 1) (hv : ∀ v ∈ vs, dot v v = 1) :
    (faissSearch vs q kp).Pairwise (fun a b => b.1 ≤ a.1) := by
  unfold faissSearch
  refine List.pairwise_append.mpr ⟨?_, ?_, ?_⟩
  · exact List.Pairwise.sublist (List.take_sublist _ _) (sortDescBy_pairwise _ _)
  · refine List.pairwise_iff_forall_sublist.mpr ?_
    intro a b hab
    have ha := List.eq_of_mem_replicate (hab.subset (List.mem_cons_self a [b]))
    have hb := List.eq_of_mem_replicate (hab.subset (List.mem_cons_of_mem a (List.mem_cons_self b [])))
    rw [ha, hb]
  · intro a ha b hb
    rcases faiss_genuine_mem ha with ⟨v, hvmem, hval⟩
    have h1 : -1 ≤ a.1 := hval ▸ (dot_unit_bounds hq (hv v hvmem)).1
    have h2 : b.1 = faissPadSim := by
      have := List.eq_of_mem_replicate hb
      rw [this]
    rw [h2]
    exact le_trans (le_of_lt faissPadSim_lt_neg_one) h1

lemma searchGo_sims_sublist (md : List MetaEntry) (tf : List String) (uf : Bool) (k : Nat) :
    ∀ (entries : List (ℚ × Int)) (acc res : List SearchHit),
      searchGo md tf uf k entries acc = some res →
      List.Sublist (res.map (fun h => h.similarity_score))
        ((acc.reverse.map (fun h => h.similarity_score)) ++ entries.map Prod.fst) := by
  intro entries
  induction entries with
  | nil =>
    intro acc res h
    simp only [searchGo, Option.some.injEq] at h
    subst h
    simp
  | cons e rest ih =>
    rcases e with ⟨sim, idx⟩
    intro acc res h
    have hstep : (rest.map Prod.fst).Sublist ((sim, idx) :: rest |>.map Prod.fst) := by
      simp only [List.map_cons]
      exact List.sublist_cons_self _ _
    simp only [searchGo] at h
    split at h
    next h1 =>
      split at h
      next hpy => cases h
      next m hpy =>
        split at h
        next h2 => exact (ih acc res h).trans (hstep.append_left _)
        next h2 =>
          split at h
          next h3 =>
            rw [Option.some.injEq] at h
            subst h
            simp only [List.reverse_cons, List.map_append, List.map_cons, List.map_nil,
              mkSearchHit]
            exact (List.append_sublist_append_left _).mpr
              (List.cons_sublist_cons.mpr (List.nil_sublist _))
          next h3 =>
            have := ih _ res h
            simpa [mkSearchHit, List.append_assoc] using this
    next h1 => exact (ih acc res h).trans (hstep.append_left _)

lemma pyLower_active : pyLower "active" = "active" := rfl

lemma searchGo_length (md : List MetaEntry) (tf : List String) (uf : Bool) (k : Nat) :
    ∀ (entries : List (ℚ × Int)) (acc res : List SearchHit),
      acc.length < k → searchGo md tf uf k entries acc = some res → res.length ≤ k := by
  intro entries
  induction entries with
  | nil =>
    intro acc res hlt h
    simp only [searchGo, Option.some.injEq] at h
    subst h
    simpa using le_of_lt hlt
  | cons e rest ih =>
    rcases e with ⟨sim, idx⟩
    intro acc res hlt h
    simp only [searchGo] at h
    split at h
    next h1 =>
      split at h
      next hpy => cases h
      next m hpy =>
        split at h
        next h2 => exact ih acc res hlt h
        next h2 =>
          split at h
          next h3 =>
            rw [Option.some.injEq] at h
            subst h
            simpa using Nat.succ_le_of_lt hlt
          next h3 => exact ih _ res (lt_of_not_le h3) h
    next h1 => exact ih acc res hlt h

/-! ## Claim theorems -/

/-- C1: in the spec §8 end-to-end scenario (student/early-career seeker
seeking research and grant, located in Romania; Project A: applicant
types `["student"]`, active, online-virtual, short-term, raw similarity
0.8; Project B: applicant types `["professional"]`, active, in-person,
long-term, raw similarity 0.9), Project A's composite final score is
strictly greater than Project B's, and `find_recommendations` with
`top_k = 1` returns exactly Project A. -/
theorem c1_end_to_end_scenario :
    (calculate_relevance_score (annotateProject seekerData hitA) seekerData (4/5)).final_score >
      (calculate_relevance_score (annotateProject seekerData hitB) seekerData (9/10)).final_score ∧
    (find_recommendations scenarioEngine "u1" (some "individual") none (some 1)).map
      (fun r => r.project_id) = ["projA"] := by
  constructor
  · norm_num +decide [calculate_relevance_score, annotateProject, get_user_preferences,
      seekerData, hitA, hitB, projectAData, projectBData, type_mapping, assocGetD,
      parseApplicantTypes, typeScoreOf, typeScoreBase, deliveryScoreOf, deliveryScoreBase,
      durationScoreOf, alignScoreOf, appTypesContain, pyIn, charsContain, charsStartWith]
  · have hsearch : scenarioStore.search qSeeker 3 (some ["project_calls"]) =
        [mkSearchHit metaB (9/10), mkSearchHit metaA (4/5), mkSearchHit metaA faissPadSim] := by
      norm_num [VectorStore.search, VectorStore.searchOutcome, scenarioStore, faissSearch,
        qSeeker, vProjectA, vProjectB, dot, sortDescBy, insertDescBy, searchGo, pyIndex,
        metaA, metaB, List.enum, List.enumFrom, faissPadSim]
    have hlookup : scenarioEngine.lookupUser "individuals" "u1" =
        some { id := some "u1", embedding := qSeeker, original_data := seekerData } := rfl
    have hfilter : apply_compatibility_filters
        [mkSearchHit metaB (9/10), mkSearchHit metaA (4/5), mkSearchHit metaA faissPadSim]
        seekerData =
        [{ mkSearchHit metaB (9/10) with type_mismatch := true, location_mismatch := true },
         mkSearchHit metaA (4/5),
         mkSearchHit metaA faissPadSim] := by
      norm_num +decide [apply_compatibility_filters, annotateProject, get_user_preferences,
        seekerData, metaA, metaB, projectAData, projectBData, type_mapping, assocGetD,
        parseApplicantTypes, statusActive, mkSearchHit, List.filterMap_cons,
        List.filterMap_nil, pyLower]
    have hscoreB : (buildRecommendation seekerData
        { mkSearchHit metaB (9/10) with
            type_mismatch := true, location_mismatch := true }).match_score = 709/1000 := by
      norm_num +decide [buildRecommendation, calculate_relevance_score, get_user_preferences,
        seekerData, metaB, projectBData, typeScoreOf, typeScoreBase, deliveryScoreOf,
        deliveryScoreBase, durationScoreOf, alignScoreOf, appTypesContain, pyIn, charsContain,
        charsStartWith, mkSearchHit]
    have hscoreA : (buildRecommendation seekerData (mkSearchHit metaA (4/5))).match_score
        = 17/20 := by
      norm_num +decide [buildRecommendation, calculate_relevance_score, get_user_preferences,
        seekerData, metaA, projectAData, typeScoreOf, typeScoreBase, deliveryScoreOf,
        deliveryScoreBase, durationScoreOf, alignScoreOf, appTypesContain, pyIn, charsContain,
        charsStartWith, mkSearchHit]
    have hidA : (buildRecommendation seekerData (mkSearchHit metaA (4/5))).project_id
        = "projA" := rfl
    simp only [find_recommendations, resolveEntityKey]
    norm_num
    rw [hlookup]
    norm_num [show scenarioEngine.vector_store = scenarioStore from rfl, hsearch, hfilter,
      sortDescBy, insertDescBy, hscoreA, hscoreB, hidA]
    simp [hidA]

/-- C8: searching before any insertion has built the index takes the
index-not-built failure exit (the source's `IndexNotBuilt` error kind,
reported as a diagnostic plus an empty result list). -/
theorem c8_search_before_add (dim : Nat) (q : List ℚ) (k : Nat) (f : Option (List String)) :
    (VectorStore.init dim).searchOutcome q k f = .notBuilt ∧
    (VectorStore.init dim).search q k f = [] := by
  constructor <;> rfl

/-- C6 is violated by the code: on a built index holding one unit vector,
a unit query with `k = 2` makes FAISS pad its rows, and `search` turns
the padding row into a result carrying the padding distance `-FLT_MAX`,
far outside `[-1, 1]`. -/
theorem c6_similarity_bound_violated :
    (padStore.search [1, 0] 2 none).map (fun h => h.similarity_score) = [1, faissPadSim] ∧
    faissPadSim < -1 := by
  constructor
  · norm_num +decide [VectorStore.search, VectorStore.searchOutcome, padStore, faissSearch,
      dot, sortDescBy, insertDescBy, searchGo, pyIndex, padMeta, mkSearchHit, List.enum,
      List.enumFrom]
  · exact faissPadSim_lt_neg_one

/-- C10 is violated by the code: on a built index whose single metadata
entry has id `p1`, a search with `k = 2` returns that entity twice — the
second result is fabricated from the FAISS padding label `-1`, which the
`idx < len(metadata)` guard accepts and Python negative indexing resolves
to the last metadata entry. -/
theorem c10_fabricated_duplicate_result :
    (padStore.metadata.map (fun m => m.entity_id) = ["p1"]) ∧
    (padStore.search [1, 0] 2 none).map (fun h => h.entity_id) = ["p1", "p1"] := by
  constructor
  · rfl
  · norm_num +decide [VectorStore.search, VectorStore.searchOutcome, padStore, faissSearch,
      dot, sortDescBy, insertDescBy, searchGo, pyIndex, padMeta, mkSearchHit, List.enum,
      List.enumFrom]

/-- C9 is violated by the code: a seeker record without a location field
(profile location `"any"`) still gets `location_mismatch = true` on an
active in-person candidate located in a specific city — only the sentinel
`"other"`, equal locations, or virtual delivery suppress the flag. -/
theorem c9_counterexample :
    noLocSeeker.location = none ∧
    (get_user_preferences noLocSeeker).location = "any" ∧
    (apply_compatibility_filters [inPersonClujHit] noLocSeeker).map
      (fun p => p.location_mismatch) = [true] := by
  refine ⟨rfl, rfl, ?_⟩
  norm_num +decide [apply_compatibility_filters, annotateProject, get_user_preferences,
    noLocSeeker, inPersonClujHit, type_mapping, assocGetD, parseApplicantTypes,
    statusActive, pyLower, List.filterMap_cons, List.filterMap_nil]

/-- C9 (amended): for a seeker whose record has no location field, the
filter sets `location_mismatch` exactly when the candidate's location is
present and differs from `"any"`, is not the sentinel `"other"`, and the
candidate's delivery mode is neither online-virtual nor hybrid; in
particular a candidate with no location of its own is never marked. -/
theorem c9_missing_location_mismatch_rule (user_data : EntityData) (p : SearchHit)
    (h : user_data.location = none) :
    (annotateProject user_data p).location_mismatch = true ↔
      (p.original_data.location.getD "any" ≠ "any" ∧
       p.original_data.location.getD "any" ≠ "other" ∧
       (["online-virtual", "hybrid"] : List String).contains
         (p.original_data.delivery.getD "in-person") = false) := by
  simp only [annotateProject, get_user_preferences, h, Option.getD_none,
    Bool.not_eq_true', Bool.or_eq_false_iff, beq_eq_false_iff_ne, ne_eq]
  constructor
  · rintro ⟨⟨⟨h1, _⟩, h2⟩, h3⟩
    exact ⟨fun hc => h1 hc.symm, h2, h3⟩
  · rintro ⟨h1, h2, h3⟩
    exact ⟨⟨⟨fun hc => h1 hc.symm, by decide⟩, h2⟩, h3⟩

/-- C9 witness: the amended rule applied to the concrete in-person
candidate of the counterexample. -/
theorem c9_missing_location_witness :
    (annotateProject noLocSeeker inPersonClujHit).location_mismatch = true :=
  (c9_missing_location_mismatch_rule noLocSeeker inPersonClujHit rfl).mpr
    (by refine ⟨?_, ?_, ?_⟩ <;> decide)

lemma typeScoreBase_eq (ut : String) (ats : AppTypesRaw) :
    typeScoreBase ut ats = 1 ∨ typeScoreBase ut ats = 0.8 := by
  unfold typeScoreBase
  split_ifs <;> simp

lemma typeScoreOf_bounds (ut : String) (ats : AppTypesRaw) (m : Bool) :
    0 ≤ typeScoreOf ut ats m ∧ typeScoreOf ut ats m ≤ 1 := by
  unfold typeScoreOf
  rcases typeScoreBase_eq ut ats with h | h <;> rw [h] <;> cases m <;> norm_num

lemma deliveryScoreBase_eq (d : String) :
    deliveryScoreBase d = 0.9 ∨ deliveryScoreBase d = 0.7 := by
  unfold deliveryScoreBase
  split_ifs <;> simp

lemma deliveryScoreOf_bounds (d : String) (m : Bool) :
    0 ≤ deliveryScoreOf d m ∧ deliveryScoreOf d m ≤ 1 := by
  unfold deliveryScoreOf
  rcases deliveryScoreBase_eq d with h | h <;> rw [h] <;> cases m <;> norm_num

lemma durationScoreOf_bounds (ut d : String) :
    0 ≤ durationScoreOf ut d ∧ durationScoreOf ut d ≤ 1 := by
  unfold durationScoreOf
  split_ifs <;> norm_num

lemma alignScoreOf_bounds (seeking : List String) (pt : String) :
    0 ≤ alignScoreOf seeking pt ∧ alignScoreOf seeking pt ≤ 1 := by
  unfold alignScoreOf
  split_ifs <;> norm_num

/-- C2: `calculate_relevance_score` composes its five sub-scores with the
fixed weights 0.40, 0.25, 0.20, 0.10, 0.05, which sum to exactly 1; and
whenever the raw similarity is at most 1, all five components and the
final score lie in `[0, 1]`. -/
theorem c2_weighted_composite (project : SearchHit) (user_data : EntityData) (sim : ℚ) :
    (calculate_relevance_score project user_data sim).final_score =
      0.40 * (calculate_relevance_score project user_data sim).semantic_similarity +
      0.25 * (calculate_relevance_score project user_data sim).applicant_type_match +
      0.20 * (calculate_relevance_score project user_data sim).project_type_alignment +
      0.10 * (calculate_relevance_score project user_data sim).delivery_compatibility +
      0.05 * (calculate_relevance_score project user_data sim).duration_fit ∧
    (0.40 + 0.25 + 0.20 + 0.10 + 0.05 : ℚ) = 1 ∧
    (sim ≤ 1 → scoresInRange (calculate_relevance_score project user_data sim)) := by
  refine ⟨?_, by norm_num, ?_⟩
  · simp only [calculate_relevance_score]
    ring
  · intro hsim
    obtain ⟨ht0, ht1⟩ := typeScoreOf_bounds (get_user_preferences user_data).user_type
      project.original_data.applicantTypes project.type_mismatch
    obtain ⟨hd0, hd1⟩ := deliveryScoreOf_bounds (project.original_data.delivery.getD "in-person")
      project.location_mismatch
    obtain ⟨hu0, hu1⟩ := durationScoreOf_bounds (get_user_preferences user_data).user_type
      (project.original_data.duration.getD "unknown")
    obtain ⟨ha0, ha1⟩ := alignScoreOf_bounds (get_user_preferences user_data).seeking
      (project.original_data.type.getD "unknown")
    have hs0 : (0 : ℚ) ≤ max 0 sim := le_max_left 0 sim
    have hs1 : max 0 sim ≤ 1 := max_le (by norm_num) hsim
    unfold scoresInRange
    simp only [calculate_relevance_score]
    refine ⟨hs0, hs1, ht0, ht1, ha0, ha1, hd0, hd1, hu0, hu1, ?_, ?_⟩ <;> nlinarith

/-- C2 witness: the bounds instantiated at the §8 Project A candidate
with raw similarity 1/2. -/
theorem c2_witness : scoresInRange (calculate_relevance_score hitA seekerData (1/2)) :=
  (c2_weighted_composite hitA seekerData (1/2)).2.2 (by norm_num)

lemma annotateProject_original_data (user_data : EntityData) (p : SearchHit) :
    (annotateProject user_data p).original_data = p.original_data := rfl

lemma statusActive_of_cancelled (pd : EntityData) (h : pd.status = some "cancelled") :
    statusActive pd = false := by
  rw [statusActive, h]
  rfl

/-- C3: `apply_compatibility_filters` returns exactly the annotated forms
of the input candidates whose lowercased status is active or empty, in
their original order; every active-status candidate survives (the soft
mismatch flags never cause removal), and no candidate in the output has
status cancelled. -/
theorem c3_hard_status_filter (projects : List SearchHit) (user_data : EntityData) :
    apply_compatibility_filters projects user_data =
      (projects.filter (fun p => statusActive p.original_data)).map
        (annotateProject user_data) ∧
    (∀ p ∈ projects, statusActive p.original_data = true →
      annotateProject user_data p ∈ apply_compatibility_filters projects user_data) ∧
    (∀ q ∈ apply_compatibility_filters projects user_data,
      statusActive q.original_data = true ∧ q.original_data.status ≠ some "cancelled") := by
  have h1 : apply_compatibility_filters projects user_data =
      (projects.filter (fun p => statusActive p.original_data)).map
        (annotateProject user_data) := by
    induction projects with
    | nil => rfl
    | cons p ps ih =>
      simp only [apply_compatibility_filters, List.filterMap_cons] at ih ⊢
      rw [annotateProject_original_data]
      by_cases hs : statusActive p.original_data = true
      · simp [hs, ih, List.filter_cons]
      · simp [hs, ih, List.filter_cons]
  refine ⟨h1, ?_, ?_⟩
  · intro p hp hs
    rw [h1]
    exact List.mem_map_of_mem _ (List.mem_filter.mpr ⟨hp, by simpa using hs⟩)
  · intro q hq
    rw [h1] at hq
    rcases List.mem_map.mp hq with ⟨p, hpf, rfl⟩
    rcases List.mem_filter.mp hpf with ⟨hp, hs⟩
    rw [annotateProject_original_data]
    refine ⟨by simpa using hs, ?_⟩
    intro hc
    rw [statusActive_of_cancelled p.original_data hc] at hs
    simp at hs

/-- C3 witness: the §8 Project B candidate (whose applicant types
mismatch the student seeker, so it is annotated `type_mismatch = true`)
still appears in the filtered output next to a cancelled candidate,
which does not. -/
theorem c3_witness :
    annotateProject seekerData hitB ∈
      apply_compatibility_filters [hitB, cancelledHit] seekerData :=
  (c3_hard_status_filter [hitB, cancelledHit] seekerData).2.1 hitB
    (List.mem_cons_self hitB [cancelledHit]) rfl

/-- C7: saving a built index and loading the saved blob yields a store
whose `search` agrees with the original on every query, `k` and kind
filter, and whose metadata and id-to-position map are preserved. -/
theorem c7_persist_load_round_trip (s : VectorStore) (saved : SavedIndex)
    (hsave : s.save_index = some saved) :
    (∀ q k f, (VectorStore.load_index saved).search q k f = s.search q k f) ∧
    (VectorStore.load_index saved).metadata = s.metadata ∧
    (VectorStore.load_index saved).id_to_index = s.id_to_index := by
  obtain ⟨dim, vs, md, idx, ib⟩ := s
  simp only [VectorStore.save_index] at hsave
  split at hsave
  next hb => cases hsave
  next hb =>
    rw [Option.some.injEq] at hsave
    subst hsave
    have hib : ib = true := by
      revert hb
      cases ib <;> simp
    subst hib
    exact ⟨fun q k f => rfl, rfl, rfl⟩

/-- C7 witness: the round trip instantiated at the one-vector store and
a concrete query. -/
theorem c7_witness :
    (VectorStore.load_index padSaved).search [1, 0] 1 none =
      padStore.search [1, 0] 1 none :=
  (c7_persist_load_round_trip padStore padSaved rfl).1 [1, 0] 1 none

/-- C5: on a built index of unit-norm vectors and with a unit-norm query
(the source normalizes both before comparison), `search` with a positive
`k` returns at most `k` results, sorted by similarity descending with no
inversions. -/
theorem c5_search_topk_sorted (s : VectorStore) (q : List ℚ) (k : Nat)
    (f : Option (List String)) (hb : s.is_built = true) (hk : 0 < k)
    (hq : dot q q = 1) (hv : ∀ v ∈ s.vectors, dot v v = 1) :
    (s.search q k f).length ≤ k ∧
    (s.search q k f).Pairwise (fun a b => b.similarity_score ≤ a.similarity_score) := by
  unfold VectorStore.search VectorStore.searchOutcome
  rw [hb]
  simp only [Bool.true_eq_false, if_false]
  cases hsg : searchGo s.metadata (f.getD []) (kindFilterActive f) k
      (faissSearch s.vectors q (k * 2)) [] with
  | none => simp
  | some res =>
    simp only
    constructor
    · exact searchGo_length s.metadata (f.getD []) (kindFilterActive f) k
        (faissSearch s.vectors q (k * 2)) [] res (by simpa using hk) hsg
    · have hsub := searchGo_sims_sublist s.metadata (f.getD []) (kindFilterActive f) k
        (faissSearch s.vectors q (k * 2)) [] res hsg
      simp only [List.reverse_nil, List.map_nil, List.nil_append] at hsub
      have hpw : ((faissSearch s.vectors q (k * 2)).map Prod.fst).Pairwise
          (fun a b => b ≤ a) :=
        (faissSearch_pairwise (k * 2) hq hv).map Prod.fst (fun a b h => h)
      exact List.pairwise_map.mp (List.Pairwise.sublist hsub hpw)

/-- C5 witness: the bound and sortedness instantiated at the one-vector
store with a unit query and `k = 1`. -/
theorem c5_witness :
    (padStore.search [1, 0] 1 none).length ≤ 1 ∧
    (padStore.search [1, 0] 1 none).Pairwise
      (fun a b => b.similarity_score ≤ a.similarity_score) :=
  c5_search_topk_sorted padStore [1, 0] 1 none rfl (by norm_num)
    (by norm_num [dot])
    (by
      intro v hv
      simp only [padStore, List.mem_singleton] at hv
      subst hv
      norm_num [dot])

lemma map_snd_sortLex_enum {α : Type} (key : α → ℚ) (l : List α) :
    (sortLex key l.enum).map Prod.snd = sortDescBy key l :=
  map_snd_sortLex_enumFrom key l 0

/-- C4: for a resolvable seeker and positive `top_k`,
`find_recommendations` equals the pipeline that over-fetches
`top_k * 3` project-call hits from the store, soft-filters them, scores
only the first `top_k * 2` survivors, stable-sorts by composite score
descending and truncates to `top_k`; the output has at most `top_k`
entries, is sorted by score descending, and (decorated with original
positions) realizes the lexicographic order "score descending, then
original search position ascending" — ties keep the original order. -/
theorem c4_overfetch_score_rank_truncate (eng : MatchingEngine) (user_id : String)
    (user_type entity_type : Option String) (k : Nat) (item : EmbItem)
    (hk : 0 < k)
    (hfound : eng.lookupUser (resolveEntityKey user_type entity_type) user_id = some item) :
    find_recommendations eng user_id user_type entity_type (some k) =
      (sortDescBy (fun r => r.match_score)
        (((apply_compatibility_filters
            (eng.vector_store.search item.embedding (k * 3) (some ["project_calls"]))
            item.original_data).take (k * 2)).map
          (buildRecommendation item.original_data))).take k ∧
    (find_recommendations eng user_id user_type entity_type (some k)).length ≤ k ∧
    (find_recommendations eng user_id user_type entity_type (some k)).Pairwise
      (fun a b => b.match_score ≤ a.match_score) ∧
    ∃ decorated : List (Nat × Recommendation),
      List.Perm decorated
        ((((apply_compatibility_filters
            (eng.vector_store.search item.embedding (k * 3) (some ["project_calls"]))
            item.original_data).take (k * 2)).map
          (buildRecommendation item.original_data)).enum) ∧
      decorated.Pairwise (lexBefore (fun r => r.match_score)) ∧
      find_recommendations eng user_id user_type entity_type (some k) =
        (decorated.map Prod.snd).take k := by
  have hout : find_recommendations eng user_id user_type entity_type (some k) =
      (sortDescBy (fun r => r.match_score)
        (((apply_compatibility_filters
            (eng.vector_store.search item.embedding (k * 3) (some ["project_calls"]))
            item.original_data).take (k * 2)).map
          (buildRecommendation item.original_data))).take k := by
    simp only [find_recommendations, hfound, Option.getD_some]
    by_cases hempty :
        eng.vector_store.search item.embedding (k * 3) (some ["project_calls"]) = []
    · simp [hempty, apply_compatibility_filters, sortDescBy]
    · simp [hempty]
  refine ⟨hout, ?_, ?_, ?_⟩
  · rw [hout, List.length_take]
    exact min_le_left _ _
  · rw [hout]
    exact List.Pairwise.sublist (List.take_sublist _ _) (sortDescBy_pairwise _ _)
  · refine ⟨sortLex (fun r => r.match_score)
      ((((apply_compatibility_filters
          (eng.vector_store.search item.embedding (k * 3) (some ["project_calls"]))
          item.original_data).take (k * 2)).map
        (buildRecommendation item.original_data)).enum), ?_, ?_, ?_⟩
    · exact sortLex_perm _ _
    · exact sortLex_pairwise _ _
    · rw [hout, map_snd_sortLex_enum]

/-- C4 witness: the pipeline properties instantiated at the §8 scenario
engine with `top_k = 1`. -/
theorem c4_witness :
    (find_recommendations scenarioEngine "u1" (some "individual") none (some 1)).length ≤ 1 :=
  (c4_overfetch_score_rank_truncate scenarioEngine "u1" (some "individual") none 1
    { id := some "u1", embedding := qSeeker, original_data := seekerData }
    (by norm_num) rfl).2.1

end M4R
